import Mathlib

/-!
Verification of the aim-training drill engine in
`src/vite-project/src/components/CanvasDrill.jsx`.

The component's mutable refs become fields of `DrillState`; the event handlers
(`onMouseDown`, `onMouseMove`), the session controls (`startSession`,
`endSession`) and one pass of the requestAnimationFrame `loop` become pure
state-transformers.  JavaScript numbers are modelled as exact rationals.
`Math.random()` draws and `performance.now()` are inputs to each frame.
Rendering, the sparkline, HUD text and React's `setTimeout` end-scheduling have
no simulation effect and are omitted; React state writes (`setCountdown`) are
modelled as taking effect on the next frame.
-/

namespace RecoilDrill

/-- Cursor mode (`settings.cursorMode`): `fixed` keeps the crosshair at the
canvas center, `free` lets it follow the pointer. -/
inductive CursorMode
  | fixed
  | free
deriving DecidableEq

/-- The settings object consumed by `CanvasDrill` (shape of `DEFAULT_SETTINGS`). -/
structure Settings where
  countdownSec : ℚ
  durationSec : ℚ
  startGraceMs : ℚ
  deadZoneY : ℚ
  recoilSpeed : ℚ
  recoilJitter : ℚ
  compensationGain : ℚ
  targetRadius : ℚ
  showPath : Bool
  showHeatmap : Bool
  crosshairSize : ℚ
  cursorMode : CursorMode
deriving DecidableEq

/-- `DEFAULT_SETTINGS` of CanvasDrill.jsx (lines 8-21). -/
def DEFAULT_SETTINGS : Settings :=
  { countdownSec := 3
    durationSec := 30
    startGraceMs := 250
    deadZoneY := 1/2
    recoilSpeed := 220
    recoilJitter := 12
    compensationGain := 1
    targetRadius := 22
    showPath := true
    showHeatmap := true
    crosshairSize := 16
    cursorMode := CursorMode.fixed }

/-- `clamp(v, a, b) = Math.min(b, Math.max(a, v))` (lines 4-6). -/
def clamp (v a b : ℚ) : ℚ := min b (max a v)

/-- JavaScript `Math.round`: round half toward positive infinity. -/
def jsRound (x : ℚ) : ℤ := ⌊x + 1/2⌋

/-- `Number(x.toFixed(1))` for the nonnegative statistics emitted here. -/
def toFixed1 (x : ℚ) : ℚ := (jsRound (x * 10) : ℚ) / 10

/-- `Number(x.toFixed(2))` for the nonnegative statistics emitted here. -/
def toFixed2 (x : ℚ) : ℚ := (jsRound (x * 100) : ℚ) / 100

/-- The mutable refs of the component that carry simulation state:
canvas size, crosshair (`aimRef`), target, last pointer delta, the two bounded
histories, the three click counters, the left-click timestamp list (seconds),
button flags, the `running`/`countdown` React state, and the three session
timestamps (ms). -/
structure DrillState where
  w : ℚ
  h : ℚ
  aimX : ℚ
  aimY : ℚ
  targetX : ℚ
  targetY : ℚ
  lastMouseDy : ℚ
  errorHistory : List ℚ
  pathPoints : List (ℚ × ℚ)
  leftCount : ℕ
  midCount : ℕ
  rightCount : ℕ
  lTimestamps : List ℚ
  btnL : Bool
  btnM : Bool
  btnR : Bool
  running : Bool
  countdown : ℚ
  countdownStartMs : ℚ
  startedAtMs : ℚ
  sessionEndAtMs : ℚ
deriving DecidableEq

/-- The Session Summary record emitted by `endSession` (lines 258-265).
`endedAt`, a wall-clock display label, is not modelled. -/
structure Summary where
  durationSec : ℚ
  avgError : ℚ
  hitRate : ℚ
  shots : ℕ
  avgCps : ℚ
deriving DecidableEq

/-- Mean of the error history (lines 238-240):
`errors.length ? errors.reduce((a,b) => a+b, 0) / errors.length : 0`. -/
def avgErrorOf (errors : List ℚ) : ℚ :=
  if errors.length ≠ 0 then errors.sum / (errors.length : ℚ) else 0

/-- `approxHits` (lines 244-248): when both shots and the history are non-empty,
`Math.round(hitFrames * (shots / errors.length))` with
`hitFrames = errors.filter(e => e <= hitRadius).length`; otherwise 0. -/
def approxHitsOf (hitRadius : ℚ) (shots : ℕ) (errors : List ℚ) : ℤ :=
  if 0 < shots ∧ 0 < errors.length then
    jsRound (((errors.filter (fun e => decide (e ≤ hitRadius))).length : ℚ) *
      ((shots : ℚ) / (errors.length : ℚ)))
  else 0

/-- `hitRate = shots ? approxHits / shots : 0` (line 249). -/
def hitRateOf (hitRadius : ℚ) (shots : ℕ) (errors : List ℚ) : ℚ :=
  if shots ≠ 0 then (approxHitsOf hitRadius shots errors : ℚ) / (shots : ℚ) else 0

/-- Average clicks per second (lines 251-256): with the timestamp list `ts`
as it stands at session end, if `ts.length >= 2` and
`dur = ts[ts.length-1] - ts[0] > 0` then `ts.length / dur`, else 0. -/
def avgCpsOf (ts : List ℚ) : ℚ :=
  if 2 ≤ ts.length then
    if 0 < ts.getLastD 0 - ts.headD 0 then
      (ts.length : ℚ) / (ts.getLastD 0 - ts.headD 0)
    else 0
  else 0

/-- The Session Summary computed by `endSession` (lines 237-265) from the
error history, the left-click counter and the left-click timestamp list. -/
def summaryOf (setg : Settings) (errors : List ℚ) (shots : ℕ) (ts : List ℚ) : Summary :=
  { durationSec := setg.durationSec
    avgError := toFixed1 (avgErrorOf errors)
    hitRate := toFixed1 (hitRateOf setg.targetRadius shots errors * 100)
    shots := shots
    avgCps := toFixed2 (avgCpsOf ts) }

/-- `startSession()` (lines 201-226): reset timers, statistics and positions.
`now` is `performance.now()`. -/
def startSession (setg : Settings) (now : ℚ) (s : DrillState) : DrillState :=
  { s with
      countdownStartMs := now
      startedAtMs := 0
      sessionEndAtMs := 0
      countdown := setg.countdownSec
      running := true
      errorHistory := []
      pathPoints := []
      leftCount := 0
      midCount := 0
      rightCount := 0
      lTimestamps := []
      lastMouseDy := 0
      targetX := s.w / 2
      targetY := (⌊s.h * (3/4)⌋ : ℚ)
      aimX := s.w / 2
      aimY := s.h / 2 }

/-- `endSession()` (lines 228-266): cancel the frame loop, clear the running
and countdown state, and invoke `onSessionEnd` with the Session Summary.
The `Option Summary` component models the callback invocation; the source
invokes it unconditionally (there is no phase guard). -/
def endSession (setg : Settings) (s : DrillState) : DrillState × Option Summary :=
  ({ s with running := false, countdown := 0 },
    some (summaryOf setg s.errorHistory s.leftCount s.lTimestamps))

/-- `onMouseDown` (lines 99-113): on a down-transition of button 0/1/2 set the
button flag and bump its counter; button 0 also pushes `performance.now()/1000`
onto the timestamp list. -/
def onMouseDown (button : ℕ) (nowSec : ℚ) (s : DrillState) : DrillState :=
  if button = 0 then
    { s with btnL := true, leftCount := s.leftCount + 1,
             lTimestamps := s.lTimestamps ++ [nowSec] }
  else if button = 1 then { s with btnM := true, midCount := s.midCount + 1 }
  else if button = 2 then { s with btnR := true, rightCount := s.rightCount + 1 }
  else s

/-- `onMouseMove` (lines 129-148): `locked` is
`document.pointerLockElement === canvas`; `mx, my` are `movementX/movementY`;
`cx, cy` the canvas-relative client position.  The latest vertical delta is
stored in `lastMouseDy` (it is only ever overwritten by the next event or
cleared by `startSession` — the frame loop never resets it).  In `free` mode
the crosshair also moves. -/
def onMouseMove (setg : Settings) (locked : Bool) (mx my cx cy : ℚ)
    (s : DrillState) : DrillState :=
  let dy := if locked then my else 0
  let s1 := { s with lastMouseDy := dy }
  if setg.cursorMode = CursorMode.free then
    if locked then
      { s1 with aimX := clamp (s1.aimX + mx) 0 s1.w
                aimY := clamp (s1.aimY + my) 0 s1.h }
    else
      { s1 with aimX := clamp cx 0 s1.w, aimY := clamp cy 0 s1.h }
  else s1

/-- Dead-zone and start-grace gating of the frame's pointer delta
(lines 334-341).  The source mutates one variable `dy`; the inner `if` here is
that variable after the dead-zone step. -/
def gatedDy (setg : Settings) (sinceSessionStart dy0 : ℚ) : ℚ :=
  if sinceSessionStart < setg.startGraceMs ∧
      0 < (if |dy0| < setg.deadZoneY then 0 else dy0) then 0
  else (if |dy0| < setg.deadZoneY then 0 else dy0)

/-- `comp` of line 344: the gated delta times the gain, applied only in
`fixed` cursor mode. -/
def appliedComp (setg : Settings) (sinceSessionStart dy0 : ℚ) : ℚ :=
  if setg.cursorMode = CursorMode.fixed then
    gatedDy setg sinceSessionStart dy0 * setg.compensationGain
  else 0

/-- Instantaneous recoil speed (line 327):
`recoilSpeed + (Math.random()*2 - 1) * recoilJitter`, with `rJit` standing for
the `Math.random()` draw. -/
def upPerSecOf (setg : Settings) (rJit : ℚ) : ℚ :=
  setg.recoilSpeed + (rJit * 2 - 1) * setg.recoilJitter

/-- Vertical motion of lines 330-347: `vy = upPerSec * (1/60)` (nominal 60 fps
frame), then `target.y -= vy; target.y += comp`. -/
def motionY (setg : Settings) (y upPerSec sinceSessionStart dy0 : ℚ) : ℚ :=
  y - upPerSec * (1/60) + appliedComp setg sinceSessionStart dy0

/-- Wrap rule of lines 350-357: if the target is fully above the top edge
(`y < -radius`), warp it to just below the bottom (`h + radius`) and perturb x
by `Math.random()*200 - 100`, clamped to `[radius, w - radius]`; `rWrap`
stands for the `Math.random()` draw. -/
def wrapTarget (setg : Settings) (w h : ℚ) (t : ℚ × ℚ) (rWrap : ℚ) : ℚ × ℚ :=
  if t.2 < -setg.targetRadius then
    (clamp (t.1 + (rWrap * 200 - 100)) setg.targetRadius (w - setg.targetRadius),
      h + setg.targetRadius)
  else t

/-- `arr.push(x); if (arr.length > cap) arr.shift()` — bounded history push
(lines 362-363 and 418-419). -/
def capPush (cap : ℕ) (l : List ℚ) (x : ℚ) : List ℚ :=
  if cap < (l ++ [x]).length then (l ++ [x]).tail else l ++ [x]

/-- bounded push for the path history (same pattern at element type point). -/
def capPushP (cap : ℕ) (l : List (ℚ × ℚ)) (x : ℚ × ℚ) : List (ℚ × ℚ) :=
  if cap < (l ++ [x]).length then (l ++ [x]).tail else l ++ [x]

/-- Host-supplied inputs of one `loop` pass: `now = performance.now()`, the
jitter and wrap `Math.random()` draws, and `err`, the value
`Math.hypot(target.x - ax, target.y - ay)` of line 417.  `err` is an input
because the square root is irrational; theorems pin it down with `IsHypot`. -/
structure FrameIn where
  now : ℚ
  rJit : ℚ
  rWrap : ℚ
  err : ℚ
deriving DecidableEq

/-- `e = Math.hypot(dx, dy)`: `e` is the nonnegative root of `dx^2 + dy^2`. -/
def IsHypot (dx dy e : ℚ) : Prop := 0 ≤ e ∧ e ^ 2 = dx ^ 2 + dy ^ 2

instance (dx dy e : ℚ) : Decidable (IsHypot dx dy e) :=
  inferInstanceAs (Decidable (0 ≤ e ∧ e ^ 2 = dx ^ 2 + dy ^ 2))

/-- Payload of the per-frame `onClickUpdate` callback (lines 470-480). -/
structure ClickUpdate where
  L : Bool
  M : Bool
  R : Bool
  cps : ℕ
  countLeft : ℕ
  countMid : ℕ
  countRight : ℕ
deriving DecidableEq

/-- One pass of the rAF `loop` (lines 272-484), restricted to simulation
state.  In source order: countdown recomputation (290-295), lazy session-start
latch (298-302), target motion and wrap while the countdown is over (325-358),
path history (361-375), error history (416-419), timestamp pruning and the
click-state callback (466-481).  The `countdown` React state read by the
frame's guards is the `countdown` field of the incoming state; the
`setCountdown` write is the field of the outgoing state.  Rendering and the
`setTimeout(endSession, 0)` scheduling are omitted. -/
def loopFrame (setg : Settings) (fin : FrameIn) (s : DrillState) :
    DrillState × ClickUpdate :=
  let cdElapsed := fin.now - s.countdownStartMs
  let cdLeft := max 0 (setg.countdownSec - (⌊cdElapsed / 1000⌋ : ℚ))
  let startedAt2 := if s.countdown ≤ 0 ∧ s.startedAtMs = 0 then fin.now
    else s.startedAtMs
  let sessionEnd2 := if s.countdown ≤ 0 ∧ s.startedAtMs = 0 then
    fin.now + setg.durationSec * 1000 else s.sessionEndAtMs
  let sinceSessionStart := if startedAt2 ≠ 0 then fin.now - startedAt2
    else cdElapsed - setg.countdownSec * 1000
  let target2 := if s.countdown ≤ 0 then
      wrapTarget setg s.w s.h
        (s.targetX,
          motionY setg s.targetY (upPerSecOf setg fin.rJit) sinceSessionStart
            s.lastMouseDy)
        fin.rWrap
    else (s.targetX, s.targetY)
  let path2 := if setg.showPath then capPushP 800 s.pathPoints target2 else []
  let errors2 := capPush 300 s.errorHistory fin.err
  let ts2 := s.lTimestamps.filter (fun t => decide (fin.now / 1000 - t ≤ 1))
  ({ s with
      targetX := target2.1
      targetY := target2.2
      pathPoints := path2
      errorHistory := errors2
      lTimestamps := ts2
      countdown := cdLeft
      startedAtMs := startedAt2
      sessionEndAtMs := sessionEnd2 },
    { L := s.btnL, M := s.btnM, R := s.btnR, cps := ts2.length,
      countLeft := s.leftCount, countMid := s.midCount,
      countRight := s.rightCount })

/-- An idle pre-session state on a 400 x 300 playfield. -/
def initState : DrillState :=
  { w := 400, h := 300, aimX := 200, aimY := 150, targetX := 200, targetY := 225,
    lastMouseDy := 0, errorHistory := [], pathPoints := [], leftCount := 0,
    midCount := 0, rightCount := 0, lTimestamps := [], btnL := false,
    btnM := false, btnR := false, running := false, countdown := 0,
    countdownStartMs := 0, startedAtMs := 0, sessionEndAtMs := 0 }

/-- The state right after a session is started and immediately stopped:
an ended session. -/
def endedState : DrillState :=
  (endSession DEFAULT_SETTINGS (startSession DEFAULT_SETTINGS 0 initState)).1

/-- Deterministic settings for the concrete frame-loop runs: recoil 60 px/s
(one pixel per nominal frame), no jitter, no start grace. -/
def setgC3 : Settings :=
  { DEFAULT_SETTINGS with recoilSpeed := 60, recoilJitter := 0, startGraceMs := 0 }

/-- A running mid-session state: the 3 s countdown (started at t = 0) is over
and the session started at t = 3000 ms. -/
def runningState : DrillState :=
  { initState with running := true, startedAtMs := 3000, sessionEndAtMs := 33000 }

/-- `runningState` right after a pointer-lock motion event with `movementY = 10`. -/
def movedState : DrillState := { runningState with lastMouseDy := 10 }

/-- A playfield whose height is not divisible by 4, so that 75% of the height
is not a whole pixel. -/
def oddState : DrillState := { initState with h := 2 }

/-- A countdown-phase state: the countdown is still at 3, and the target sits
at offset (3, 4) from the fixed-mode aim point (100, 75). -/
def cdState : DrillState :=
  { initState with
      w := 200
      h := 150
      targetX := 103
      targetY := 79
      countdown := 3
      running := true }


/-- `Math.round` never exceeds its argument by more than a half. -/
theorem jsRound_le (x : ℚ) : (jsRound x : ℚ) ≤ x + 1/2 := Int.floor_le _

/-- `Math.round` never falls below its argument by a half or more. -/
theorem lt_jsRound (x : ℚ) : x - 1/2 < (jsRound x : ℚ) := by
  have hf := Int.sub_one_lt_floor (x + 1/2)
  unfold jsRound
  linarith

/-- A pushed element always survives the bounded-history eviction (the cap
evicts from the front only). -/
theorem mem_capPush (cap : ℕ) (l : List ℚ) (x : ℚ) (hcap : 0 < cap) :
    x ∈ capPush cap l x := by
  unfold capPush
  split_ifs with hlen
  · cases l with
    | nil =>
      exfalso
      simp at hlen
      omega
    | cons a t => simp
  · simp

/-- C5: whenever the wrap check of the simulated step sees `target.y < -radius`,
the step relocates the target to `y = height + radius` and to
`x = clamp(x + off, radius, width - radius)` where `off = rand*200 - 100` lies
in `[-100, 100]`; the relocated `x` lies in `[radius, width - radius]` whenever
that interval is nonempty; and a step whose wrap check fails leaves the target
(in particular `target.x`) unchanged, so there is no horizontal movement except
on wrap. -/
theorem C5_target_wrap (setg : Settings) (w h x y rWrap : ℚ) :
    (y < -setg.targetRadius →
      wrapTarget setg w h (x, y) rWrap =
        (clamp (x + (rWrap * 200 - 100)) setg.targetRadius (w - setg.targetRadius),
          h + setg.targetRadius) ∧
      (0 ≤ rWrap → rWrap ≤ 1 →
        -100 ≤ rWrap * 200 - 100 ∧ rWrap * 200 - 100 ≤ 100) ∧
      (setg.targetRadius ≤ w - setg.targetRadius →
        setg.targetRadius ≤ (wrapTarget setg w h (x, y) rWrap).1 ∧
          (wrapTarget setg w h (x, y) rWrap).1 ≤ w - setg.targetRadius)) ∧
    (¬ y < -setg.targetRadius → wrapTarget setg w h (x, y) rWrap = (x, y)) := by
  constructor
  · intro hy
    have hw : wrapTarget setg w h (x, y) rWrap =
        (clamp (x + (rWrap * 200 - 100)) setg.targetRadius (w - setg.targetRadius),
          h + setg.targetRadius) := by
      unfold wrapTarget
      exact if_pos hy
    refine ⟨hw, ?_, ?_⟩
    · intro h0 h1
      constructor <;> linarith
    · intro hr
      rw [hw]
      constructor
      · show setg.targetRadius ≤ clamp (x + (rWrap * 200 - 100)) setg.targetRadius
          (w - setg.targetRadius)
        unfold clamp
        exact le_min hr (le_max_left _ _)
      · show clamp (x + (rWrap * 200 - 100)) setg.targetRadius
          (w - setg.targetRadius) ≤ w - setg.targetRadius
        unfold clamp
        exact min_le_left _ _
  · intro hy
    unfold wrapTarget
    exact if_neg hy

/-- C5 witness: a concrete wrapped step on the default settings. -/
theorem C5_target_wrap_witness :
    wrapTarget DEFAULT_SETTINGS 400 300 (200, -23) (1/2) =
      (clamp (200 + ((1:ℚ)/2 * 200 - 100)) DEFAULT_SETTINGS.targetRadius
        (400 - DEFAULT_SETTINGS.targetRadius), 300 + DEFAULT_SETTINGS.targetRadius) ∧
    DEFAULT_SETTINGS.targetRadius ≤ (wrapTarget DEFAULT_SETTINGS 400 300 (200, -23) (1/2)).1 ∧
    (wrapTarget DEFAULT_SETTINGS 400 300 (200, -23) (1/2)).1 ≤
      400 - DEFAULT_SETTINGS.targetRadius := by
  have h := C5_target_wrap DEFAULT_SETTINGS 400 300 200 (-23) (1/2)
  have hy : (-23 : ℚ) < -DEFAULT_SETTINGS.targetRadius := by norm_num [DEFAULT_SETTINGS]
  have hr : DEFAULT_SETTINGS.targetRadius ≤ 400 - DEFAULT_SETTINGS.targetRadius := by
    norm_num [DEFAULT_SETTINGS]
  exact ⟨(h.1 hy).1, ((h.1 hy).2.2 hr).1, ((h.1 hy).2.2 hr).2⟩

/-- C6: on a running frame with a downward delta (`0 < dy`) of magnitude at
least the dead-zone, the delta is zeroed exactly when the elapsed time since
session start is strictly below `startGraceMs`, and passes through unchanged
once the grace window is over; an upward delta (`dy < 0`) is only ever subject
to the dead-zone, never to the grace window, and when gated to zero it
contributes nothing to `target.y`. -/
theorem C6_grace_window (setg : Settings) (since dy : ℚ) :
    (0 < dy → setg.deadZoneY ≤ |dy| →
      ((since < setg.startGraceMs →
          gatedDy setg since dy = 0 ∧ appliedComp setg since dy = 0) ∧
        (setg.startGraceMs ≤ since → gatedDy setg since dy = dy))) ∧
    (dy < 0 →
      gatedDy setg since dy = if |dy| < setg.deadZoneY then 0 else dy) := by
  constructor
  · intro hpos hdz
    have hnd : ¬ |dy| < setg.deadZoneY := not_lt.mpr hdz
    constructor
    · intro hg
      have h0 : gatedDy setg since dy = 0 := by
        unfold gatedDy
        rw [if_neg hnd, if_pos ⟨hg, hpos⟩]
      refine ⟨h0, ?_⟩
      unfold appliedComp
      rw [h0]
      simp
    · intro hg
      unfold gatedDy
      rw [if_neg hnd, if_neg]
      intro hc
      exact absurd hc.1 (not_lt.mpr hg)
  · intro hneg
    unfold gatedDy
    by_cases hd : |dy| < setg.deadZoneY
    · simp [hd]
    · simp [hd, lt_asymm hneg]

/-- C6 witness: with the default settings (dead-zone 0.5 px, grace 250 ms), a
downward delta of 3 px is zeroed at 100 ms and passes through at 300 ms, and an
upward delta of 3 px passes through. -/
theorem C6_grace_window_witness :
    gatedDy DEFAULT_SETTINGS 100 3 = 0 ∧
    gatedDy DEFAULT_SETTINGS 300 3 = 3 ∧
    gatedDy DEFAULT_SETTINGS 300 (-3) = -3 := by
  refine ⟨(((C6_grace_window DEFAULT_SETTINGS 100 3).1 (by norm_num)
      (by norm_num [DEFAULT_SETTINGS])).1 (by norm_num [DEFAULT_SETTINGS])).1,
    ((C6_grace_window DEFAULT_SETTINGS 300 3).1 (by norm_num)
      (by norm_num [DEFAULT_SETTINGS])).2 (by norm_num [DEFAULT_SETTINGS]),
    ((C6_grace_window DEFAULT_SETTINGS 300 (-3)).2 (by norm_num)).trans
      (by norm_num [DEFAULT_SETTINGS])⟩

/-- C7: in `fixed` cursor mode a pointer delta strictly inside the dead-zone
contributes exactly zero compensation, so the frame's vertical motion is the
recoil term alone: `y - upPerSec * (1/60)`. -/
theorem C7_dead_zone (setg : Settings) (y upPerSec since dy : ℚ)
    (hmode : setg.cursorMode = CursorMode.fixed)
    (hdz : |dy| < setg.deadZoneY) :
    appliedComp setg since dy = 0 ∧
    motionY setg y upPerSec since dy = y - upPerSec * (1/60) := by
  have hg : gatedDy setg since dy = 0 := by
    unfold gatedDy
    simp [hdz]
  have hc : appliedComp setg since dy = 0 := by
    unfold appliedComp
    rw [if_pos hmode, hg, zero_mul]
  refine ⟨hc, ?_⟩
  unfold motionY
  rw [hc, add_zero]

/-- C7 witness: default settings, delta 0.25 px inside the 0.5 px dead-zone. -/
theorem C7_dead_zone_witness :
    appliedComp DEFAULT_SETTINGS 300 (1/4) = 0 ∧
    motionY DEFAULT_SETTINGS 100 220 300 (1/4) = 100 - 220 * (1/60) :=
  C7_dead_zone DEFAULT_SETTINGS 100 220 300 (1/4) (by rfl)
    (by norm_num [DEFAULT_SETTINGS, abs_lt])

/-- The hit-rate estimate differs from the shot-independent ratio
`hitFrames / historyLength` by at most `1/(2*shots)` — the rounding slack. -/
theorem hitRate_close (hitRadius : ℚ) (errors : List ℚ) (s : ℕ)
    (hs : 0 < s) (hne : errors ≠ []) :
    |hitRateOf hitRadius s errors -
        ((errors.filter (fun e => decide (e ≤ hitRadius))).length : ℚ) /
          (errors.length : ℚ)| ≤
      1 / (2 * (s : ℚ)) := by
  have hlen : 0 < errors.length := List.length_pos.mpr hne
  have hsQ : (0:ℚ) < (s : ℚ) := by exact_mod_cast hs
  have hnQ : (0:ℚ) < (errors.length : ℚ) := by exact_mod_cast hlen
  have hval : hitRateOf hitRadius s errors =
      (jsRound (((errors.filter (fun e => decide (e ≤ hitRadius))).length : ℚ) *
        ((s : ℚ) / (errors.length : ℚ))) : ℚ) / (s : ℚ) := by
    unfold hitRateOf approxHitsOf
    rw [if_pos hs.ne', if_pos ⟨hs, hlen⟩]
  rw [hval]
  set hf : ℚ := ((errors.filter (fun e => decide (e ≤ hitRadius))).length : ℚ) with hhf
  set X : ℚ := hf * ((s : ℚ) / (errors.length : ℚ)) with hXdef
  have hX : X / (s : ℚ) = hf / (errors.length : ℚ) := by
    rw [hXdef]
    field_simp
    ring
  have h1 : (jsRound X : ℚ) ≤ X + 1/2 := jsRound_le X
  have h2 : X - 1/2 < (jsRound X : ℚ) := lt_jsRound X
  have h1s : (jsRound X : ℚ) / (s:ℚ) ≤ (X + 1/2) / (s:ℚ) :=
    (div_le_div_iff_of_pos_right hsQ).mpr h1
  have h2s : (X - 1/2) / (s:ℚ) ≤ (jsRound X : ℚ) / (s:ℚ) :=
    le_of_lt ((div_lt_div_iff_of_pos_right hsQ).mpr h2)
  have hXp : (X + 1/2) / (s:ℚ) = hf / (errors.length : ℚ) + 1/(2 * (s:ℚ)) := by
    rw [add_div, hX]
    ring
  have hXm : (X - 1/2) / (s:ℚ) = hf / (errors.length : ℚ) - 1/(2 * (s:ℚ)) := by
    rw [sub_div, hX]
    ring
  rw [abs_le]
  constructor <;> nlinarith [h1s, h2s, hXp, hXm]

/-- C4 counterexample: with an error history of two frames, exactly one of
which is within the 20 px radius, raising the shot count from 1 to 2 lowers
the computed hit-rate from 1 to 1/2 — the estimator is not monotonic in
shots. -/
theorem C4_counterexample :
    (1:ℕ) ≤ 2 ∧ hitRateOf 20 2 [0, 100] < hitRateOf 20 1 [0, 100] := by
  constructor
  · exact one_le_two
  · norm_num [hitRateOf, approxHitsOf, jsRound, List.filter]

/-- C4 amended: monotonicity holds only up to the rounding slack — the
hit-rate `round(hitFrames*s/len)/s` stays within `1/(2s)` of the fixed ratio
`hitFrames/len`, so for `0 < s1 ≤ s2` the hit-rate at `s2` is at least the
hit-rate at `s1` minus `1/(2*s1) + 1/(2*s2)`. -/
theorem C4_hitrate_near_monotone (hitRadius : ℚ) (errors : List ℚ)
    (s1 s2 : ℕ) (hs1 : 0 < s1) (h12 : s1 ≤ s2) (hne : errors ≠ []) :
    hitRateOf hitRadius s1 errors - (1 / (2 * (s1:ℚ)) + 1 / (2 * (s2:ℚ))) ≤
      hitRateOf hitRadius s2 errors := by
  have hs2 : 0 < s2 := lt_of_lt_of_le hs1 h12
  have h1 := hitRate_close hitRadius errors s1 hs1 hne
  have h2 := hitRate_close hitRadius errors s2 hs2 hne
  rw [abs_le] at h1 h2
  linarith [h1.1, h1.2, h2.1, h2.2]

/-- C4 witness: the amended bound at the counterexample's input:
`1 - (1/2 + 1/4) ≤ 1/2`. -/
theorem C4_hitrate_near_monotone_witness :
    hitRateOf 20 1 [0, 100] - (1 / (2 * ((1:ℕ):ℚ)) + 1 / (2 * ((2:ℕ):ℚ))) ≤
      hitRateOf 20 2 [0, 100] :=
  C4_hitrate_near_monotone 20 [0, 100] 1 2 one_pos one_le_two (by simp)

/-- C9: the zero-denominator guards of `endSession`: the summary's mean error
is 0 on an empty error history; the hit-rate is 0 when the shot count is 0;
and the average CPS is 0 when fewer than 2 timestamps remain, or when the span
between the first and last remaining timestamp is not positive. -/
theorem C9_zero_denominator_guards :
    (∀ (setg : Settings) (shots : ℕ) (ts : List ℚ),
      (summaryOf setg [] shots ts).avgError = 0) ∧
    (∀ (setg : Settings) (errors ts : List ℚ),
      (summaryOf setg errors 0 ts).hitRate = 0) ∧
    (∀ (setg : Settings) (errors : List ℚ) (shots : ℕ) (ts : List ℚ),
      ts.length < 2 → (summaryOf setg errors shots ts).avgCps = 0) ∧
    (∀ (setg : Settings) (errors : List ℚ) (shots : ℕ) (ts : List ℚ),
      ts.getLastD 0 - ts.headD 0 ≤ 0 → (summaryOf setg errors shots ts).avgCps = 0) := by
  refine ⟨?_, ?_, ?_, ?_⟩
  · intro setg shots ts
    show toFixed1 (avgErrorOf []) = 0
    norm_num [avgErrorOf, toFixed1, jsRound]
  · intro setg errors ts
    show toFixed1 (hitRateOf setg.targetRadius 0 errors * 100) = 0
    unfold hitRateOf
    rw [if_neg (fun hh => hh rfl)]
    norm_num [toFixed1, jsRound]
  · intro setg errors shots ts hlen
    show toFixed2 (avgCpsOf ts) = 0
    unfold avgCpsOf
    rw [if_neg (not_le.mpr hlen)]
    norm_num [toFixed2, jsRound]
  · intro setg errors shots ts hdur
    show toFixed2 (avgCpsOf ts) = 0
    unfold avgCpsOf
    by_cases h2 : 2 ≤ ts.length
    · rw [if_pos h2, if_neg (not_lt.mpr hdur)]
      norm_num [toFixed2, jsRound]
    · rw [if_neg h2]
      norm_num [toFixed2, jsRound]

/-- C9 witness: the four guards at concrete inputs. -/
theorem C9_zero_denominator_guards_witness :
    (summaryOf DEFAULT_SETTINGS [] 0 []).avgError = 0 ∧
    (summaryOf DEFAULT_SETTINGS [3] 0 []).hitRate = 0 ∧
    (summaryOf DEFAULT_SETTINGS [] 3 [5]).avgCps = 0 ∧
    (summaryOf DEFAULT_SETTINGS [] 3 [5, 5]).avgCps = 0 :=
  ⟨C9_zero_denominator_guards.1 DEFAULT_SETTINGS 0 [],
    C9_zero_denominator_guards.2.1 DEFAULT_SETTINGS [3] [],
    C9_zero_denominator_guards.2.2.1 DEFAULT_SETTINGS [] 3 [5] (by norm_num),
    C9_zero_denominator_guards.2.2.2 DEFAULT_SETTINGS [] 3 [5, 5] (by norm_num)⟩

/-- C1 counterexample: a session with exactly two left-clicks, at t = 0 s and
t = 1 s, and no other clicks.  `endSession` divides the full length of the
timestamp list (2), not `clickCount - 1`, by the 1 s span, so the emitted
summary has `avgCps = 2.00`, not `1.00` (`shots = 2` does hold). -/
theorem C1_counterexample :
    ((endSession DEFAULT_SETTINGS
        (onMouseDown 0 1 (onMouseDown 0 0
          (startSession DEFAULT_SETTINGS 0 initState)))).2.map
      (fun m => (m.shots, m.avgCps))) = some (2, 2) ∧ ((2:ℚ) ≠ 1) := by
  constructor
  · norm_num [endSession, onMouseDown, startSession, initState, summaryOf,
      avgCpsOf, toFixed2, jsRound, DEFAULT_SETTINGS]
  · norm_num

/-- C1 amended: for every ended session whose timestamp list (left-click
timestamps surviving the per-frame 1-second pruning) has `n ≥ 2` entries with
a positive span between first and last, the emitted summary's average CPS is
`n / span` (rounded to 2 decimals) — the full list length, not `n - 1` and not
the left-click counter — and `summary.shots` is the left-click counter. -/
theorem C1_avgCps (setg : Settings) (errors : List ℚ) (shots : ℕ)
    (ts : List ℚ) (h2 : 2 ≤ ts.length)
    (hdur : 0 < ts.getLastD 0 - ts.headD 0) :
    (summaryOf setg errors shots ts).avgCps =
      toFixed2 ((ts.length : ℚ) / (ts.getLastD 0 - ts.headD 0)) ∧
    (summaryOf setg errors shots ts).shots = shots := by
  constructor
  · show toFixed2 (avgCpsOf ts) = _
    unfold avgCpsOf
    rw [if_pos h2, if_pos hdur]
  · rfl

/-- C1 witness: the two-click scenario (t = 0 s, t = 1 s) through the amended
formula: avgCps = toFixed2(2/1) and shots = 2. -/
theorem C1_avgCps_witness :
    (summaryOf DEFAULT_SETTINGS [] 2 [0, 1]).avgCps =
      toFixed2 ((([0, 1] : List ℚ).length : ℚ) /
        (([0, 1] : List ℚ).getLastD 0 - ([0, 1] : List ℚ).headD 0)) ∧
    (summaryOf DEFAULT_SETTINGS [] 2 [0, 1]).shots = 2 :=
  C1_avgCps DEFAULT_SETTINGS [] 2 [0, 1] (by norm_num) (by norm_num)

/-- C2 counterexample: start a session, stop it (state is Ended,
`running = false`), then call `endSession` again: the second call still
invokes the session-end callback with a summary — it is not a no-op, so a
second Session Summary is emitted for the same session. -/
theorem C2_counterexample :
    endedState.running = false ∧
    (endSession DEFAULT_SETTINGS endedState).2 ≠ none := by
  constructor
  · rfl
  · simp [endSession]

/-- C2 amended: `endSession` has no phase guard.  Every call — from any state,
including one already Idle/Ended — clears the running flag and the countdown
and emits a Session Summary computed from the accumulated statistics; since
the call leaves the statistics untouched, an immediate second call emits a
second, equal summary instead of being a no-op. -/
theorem C2_end_unguarded (setg : Settings) (s : DrillState) :
    (endSession setg s).1.running = false ∧
    (endSession setg s).2 =
      some (summaryOf setg s.errorHistory s.leftCount s.lTimestamps) ∧
    (endSession setg (endSession setg s).1).2 = (endSession setg s).2 :=
  ⟨rfl, rfl, rfl⟩

/-- C8 counterexample: on a playfield of height 2 the target is repositioned
to `y = Math.floor(2 * 0.75) = 1`, while 75% of the playfield height is 1.5 —
the repositioned y is the floor of the 75% point, not the 75% point itself. -/
theorem C8_counterexample :
    (startSession DEFAULT_SETTINGS 0 oddState).targetY = 1 ∧
    (3 / 4 : ℚ) * oddState.h = 3 / 2 ∧ ((1 : ℚ) ≠ 3 / 2) := by
  refine ⟨?_, by norm_num [oddState, initState], by norm_num⟩
  show (⌊oddState.h * (3/4)⌋ : ℚ) = 1
  norm_num [oddState, initState]

/-- C8 amended: for all settings, `startSession` resets the error history, the
path history, all three click counters, the left-click timestamp list and the
pending pointer delta to empty/zero (before any frame of the new session can
run), and repositions the target to `x = width/2`,
`y = Math.floor(0.75 * height)` — the 75% point rounded down to a whole
pixel. -/
theorem C8_start_resets (setg : Settings) (now : ℚ) (s : DrillState) :
    (startSession setg now s).errorHistory = [] ∧
    (startSession setg now s).pathPoints = [] ∧
    (startSession setg now s).leftCount = 0 ∧
    (startSession setg now s).midCount = 0 ∧
    (startSession setg now s).rightCount = 0 ∧
    (startSession setg now s).lTimestamps = [] ∧
    (startSession setg now s).lastMouseDy = 0 ∧
    (startSession setg now s).targetX = s.w / 2 ∧
    (startSession setg now s).targetY = (⌊s.h * (3/4)⌋ : ℚ) :=
  ⟨rfl, rfl, rfl, rfl, rfl, rfl, rfl, rfl, rfl⟩

/-- The two cursor modes are distinct (used to evaluate mode guards). -/
theorem fixed_ne_free : CursorMode.fixed ≠ CursorMode.free :=
  fun hh => CursorMode.noConfusion hh

/-- C3 counterexample: a pointer-lock motion event with `movementY = 10` is
followed by two frames with no further motion event.  The second frame still
reads `lastMouseDy = 10` (the loop never clears it), so its compensation input
is 10, not 0, and its `target.y` change is `-1 + 10 = +9` px rather than the
pure recoil `-1` px (settings: recoil 60 px/s, no jitter, no grace, gain 1). -/
theorem C3_counterexample :
    (loopFrame setgC3 ⟨4000, 1/2, 0, 0⟩
        (onMouseMove setgC3 true 0 10 0 0 runningState)).1.lastMouseDy = 10 ∧
    ((loopFrame setgC3 ⟨4016, 1/2, 0, 0⟩
        (loopFrame setgC3 ⟨4000, 1/2, 0, 0⟩
          (onMouseMove setgC3 true 0 10 0 0 runningState)).1).1.targetY =
      (loopFrame setgC3 ⟨4000, 1/2, 0, 0⟩
        (onMouseMove setgC3 true 0 10 0 0 runningState)).1.targetY + 9) ∧
    ¬ ((loopFrame setgC3 ⟨4016, 1/2, 0, 0⟩
        (loopFrame setgC3 ⟨4000, 1/2, 0, 0⟩
          (onMouseMove setgC3 true 0 10 0 0 runningState)).1).1.targetY =
      (loopFrame setgC3 ⟨4000, 1/2, 0, 0⟩
        (onMouseMove setgC3 true 0 10 0 0 runningState)).1.targetY - 1) := by
  refine ⟨?_, ?_, ?_⟩ <;>
    norm_num [loopFrame, onMouseMove, setgC3, runningState, initState,
      DEFAULT_SETTINGS, wrapTarget, motionY, appliedComp, gatedDy, upPerSecOf,
      capPush, capPushP, jsRound, fixed_ne_free, clamp]

/-- A zero pending delta produces zero compensation in every mode. -/
theorem appliedComp_zero (setg : Settings) (since : ℚ) :
    appliedComp setg since 0 = 0 := by
  unfold appliedComp gatedDy
  simp

/-- A step whose wrap check fails leaves the target untouched. -/
theorem wrapTarget_eq_self (setg : Settings) (w h : ℚ) (t : ℚ × ℚ) (r : ℚ)
    (hy : ¬ t.2 < -setg.targetRadius) : wrapTarget setg w h t r = t := by
  unfold wrapTarget
  exact if_neg hy

/-- C3 amended: the frame's raw compensation input is the persisted
`lastMouseDy` — the delta of the most recent motion event, whenever it was
delivered.  The frame loop never clears it, so a running frame (session
started, no wrap) moves the target by
`-upPerSec/60 + comp(lastMouseDy)` even if no motion event arrived since the
previous frame; the change is the pure recoil term only when the persisted
delta is zero. -/
theorem C3_delta_persists (setg : Settings) (fin : FrameIn) (s : DrillState)
    (hcd : s.countdown ≤ 0) (hst : s.startedAtMs ≠ 0)
    (hnw : ¬ motionY setg s.targetY (upPerSecOf setg fin.rJit)
        (fin.now - s.startedAtMs) s.lastMouseDy < -setg.targetRadius) :
    (loopFrame setg fin s).1.lastMouseDy = s.lastMouseDy ∧
    (loopFrame setg fin s).1.targetY =
      s.targetY - upPerSecOf setg fin.rJit * (1/60) +
        appliedComp setg (fin.now - s.startedAtMs) s.lastMouseDy ∧
    (s.lastMouseDy = 0 →
      (loopFrame setg fin s).1.targetY =
        s.targetY - upPerSecOf setg fin.rJit * (1/60)) := by
  have hna : ¬ (s.countdown ≤ 0 ∧ s.startedAtMs = 0) := fun hh => hst hh.2
  have hty : (loopFrame setg fin s).1.targetY =
      s.targetY - upPerSecOf setg fin.rJit * (1/60) +
        appliedComp setg (fin.now - s.startedAtMs) s.lastMouseDy := by
    simp only [loopFrame]
    rw [if_neg hna, if_pos hst, if_pos hcd,
      wrapTarget_eq_self setg s.w s.h _ fin.rWrap hnw]
    rfl
  refine ⟨rfl, hty, ?_⟩
  intro h0
  rw [hty, h0, appliedComp_zero, add_zero]

/-- C3 witness: the amended statement evaluated on the concrete running state
with a persisted delta of 10 px. -/
theorem C3_delta_persists_witness :
    (loopFrame setgC3 ⟨4000, 1/2, 0, 0⟩ movedState).1.lastMouseDy =
      movedState.lastMouseDy ∧
    (loopFrame setgC3 ⟨4000, 1/2, 0, 0⟩ movedState).1.targetY =
      movedState.targetY - upPerSecOf setgC3 (1/2) * (1/60) +
        appliedComp setgC3 ((4000:ℚ) - movedState.startedAtMs)
          movedState.lastMouseDy ∧
    (movedState.lastMouseDy = 0 →
      (loopFrame setgC3 ⟨4000, 1/2, 0, 0⟩ movedState).1.targetY =
        movedState.targetY - upPerSecOf setgC3 (1/2) * (1/60)) :=
  C3_delta_persists setgC3 ⟨4000, 1/2, 0, 0⟩ movedState
    (by norm_num [movedState, runningState, initState])
    (by norm_num [movedState, runningState, initState])
    (by norm_num [movedState, runningState, initState, motionY, upPerSecOf,
      appliedComp, gatedDy, setgC3, DEFAULT_SETTINGS, fixed_ne_free])

/-- C10: every executed frame — in particular every frame during the
Countdown phase (`0 < countdown`) — appends the error sample `err` (pinned by
`IsHypot` to the distance between the target and the mode's aim point) to the
bounded error history, where it enters the end-of-session mean, and invokes
the click-state callback with the live CPS count and the three click
counters; during the countdown the frame moves no target and latches no
session-start timestamp — only target motion and session timing are gated on
the countdown having reached zero. -/
theorem C10_countdown_frames (setg : Settings) (fin : FrameIn) (s : DrillState)
    (hcd : 0 < s.countdown)
    (hhyp : IsHypot
      (s.targetX - (if setg.cursorMode = CursorMode.free then s.aimX else s.w / 2))
      (s.targetY - (if setg.cursorMode = CursorMode.free then s.aimY else s.h / 2))
      fin.err) :
    (loopFrame setg fin s).1.errorHistory = capPush 300 s.errorHistory fin.err ∧
    fin.err ∈ (loopFrame setg fin s).1.errorHistory ∧
    IsHypot
      (s.targetX - (if setg.cursorMode = CursorMode.free then s.aimX else s.w / 2))
      (s.targetY - (if setg.cursorMode = CursorMode.free then s.aimY else s.h / 2))
      fin.err ∧
    (loopFrame setg fin s).1.targetX = s.targetX ∧
    (loopFrame setg fin s).1.targetY = s.targetY ∧
    (loopFrame setg fin s).1.startedAtMs = s.startedAtMs ∧
    (loopFrame setg fin s).2 =
      { L := s.btnL, M := s.btnM, R := s.btnR,
        cps := (s.lTimestamps.filter
          (fun t => decide (fin.now / 1000 - t ≤ 1))).length,
        countLeft := s.leftCount, countMid := s.midCount,
        countRight := s.rightCount } := by
  have hncd : ¬ s.countdown ≤ 0 := not_le.mpr hcd
  have hna : ¬ (s.countdown ≤ 0 ∧ s.startedAtMs = 0) := fun hh => hncd hh.1
  refine ⟨rfl, mem_capPush 300 s.errorHistory fin.err (by norm_num), hhyp,
    ?_, ?_, ?_, rfl⟩
  · simp only [loopFrame]
    rw [if_neg hncd]
  · simp only [loopFrame]
    rw [if_neg hncd]
  · simp only [loopFrame]
    rw [if_neg hna]

/-- C10 witness: a countdown frame on a 200 x 150 playfield with the target at
offset (3, 4) from the fixed-mode aim point (100, 75), whose distance sample
is 5: the sample lands in the history and the target does not move. -/
theorem C10_countdown_frames_witness :
    (5:ℚ) ∈ (loopFrame DEFAULT_SETTINGS ⟨500, 0, 0, 5⟩ cdState).1.errorHistory ∧
    (loopFrame DEFAULT_SETTINGS ⟨500, 0, 0, 5⟩ cdState).1.targetY =
      cdState.targetY :=
  ⟨(C10_countdown_frames DEFAULT_SETTINGS ⟨500, 0, 0, 5⟩ cdState
      (by norm_num [cdState, initState])
      (by norm_num [IsHypot, cdState, initState, DEFAULT_SETTINGS,
        fixed_ne_free])).2.1,
    (C10_countdown_frames DEFAULT_SETTINGS ⟨500, 0, 0, 5⟩ cdState
      (by norm_num [cdState, initState])
      (by norm_num [IsHypot, cdState, initState, DEFAULT_SETTINGS,
        fixed_ne_free])).2.2.2.2.1⟩

end RecoilDrill
